import Mathlib

/-!
Shallow embedding of the `racs` Go package (file `racs.go`), a thin HTTP
client for the RACS document-storage REST API.

Modelling conventions:
* Go `map[string]interface{}` values are modelled as association lists of
  `Json` values; a `nil` Go map or `nil` `interface{}` argument is `none`
  of an `Option`.
* JSON numbers decoded by `encoding/json` into `float64` are modelled as
  exact rationals (every JSON numeric literal the claims mention is
  exactly representable; comparisons `==`, `>` on such `float64` values
  agree with the rational comparisons).
* The network and JSON response decoding are an oracle
  `net : Request → JsonObj` giving the decoded response mapping for the
  one request a call issues; file-system access for `CreateFile` is an
  oracle `fs : String → Option (List Nat)` (`none` = `os.Open` fails).
* A Go runtime panic (failed `.(float64)` type assertion) is the
  `CallResult.crash` outcome, distinct from an `error` return.
* Each operation returns a `CallOutcome` recording the list of HTTP
  requests it issued, the warnings it printed, the client value at
  return (to state frame properties), and its result: the decoded
  mapping, a returned `error` (with `nil` mapping), or a panic.
-/

namespace RacsGo

/-- Generic JSON value, the codomain of `encoding/json` decoding into
`map[string]interface{}` (numbers as exact rationals, see file header). -/
inductive Json where
  | null
  | boolean (b : Bool)
  | num (q : ℚ)
  | str (s : String)
  | arr (elems : List Json)
  | obj (fields : List (String × Json))

/-- A decoded JSON object / Go `map[string]interface{}`. -/
abbrev JsonObj := List (String × Json)

/-- The `Racs` struct: client configuration. -/
structure Racs where
  Resource : String
  Dataset  : String
  Headers  : List (String × String)
  BaseURL  : String

/-- An HTTP request body: a JSON payload (`bytes.NewBuffer(payload)`) or
raw file bytes (`CreateFile`). -/
inductive Body where
  | jsonBody (payload : Json)
  | rawBody (content : List Nat)

/-- An outgoing HTTP request as the Go code builds it: method, full URL,
optional body, and the headers set on it. -/
structure Request where
  method  : String
  url     : String
  body    : Option Body
  headers : List (String × String)

/-- The errors an operation can return. -/
inductive RacsError where
  | validation (msg : String)
  | noUpdatesMade
  | failedDelete
  | osError

/-- Result of a call: the decoded mapping, a Go `error` return (the
mapping returned alongside is `nil`), or a runtime panic. -/
inductive CallResult where
  | ok (resp : JsonObj)
  | err (e : RacsError)
  | crash

/-- Full observable behaviour of one call. -/
structure CallOutcome where
  requests    : List Request
  warnings    : List String
  clientAfter : Racs
  result      : CallResult

/-- True when the result is a returned validation error. -/
def isValidationError : CallResult → Bool
  | .err (.validation _) => true
  | _ => false

/-- Go map indexing `m[k]` on a `map[string]interface{}`: the stored value,
or the zero value `nil` when the key is absent. -/
def mapGet (m : JsonObj) (k : String) : Json :=
  match m.lookup k with
  | some v => v
  | none => Json.null

/-- The Go type assertion `v.(float64)`: `some` the number, `none` when the
value is not a `float64` (in Go this panics). -/
def assertFloat64 : Json → Option ℚ
  | Json.num q => some q
  | _ => none

/-- The warning printed when matchedCount exceeds modifiedCount. -/
def warnMsg : String := "Warning: matchedCount is greater than modifiedCount."

/-- `NewRacs`: constructor, validating resource and dataset. -/
def NewRacs (resource dataset : String) : Except RacsError Racs :=
  if resource = "" then .error (.validation "resource can\x27t be empty")
  else if dataset = "" then .error (.validation "dataset can\x27t be empty")
  else .ok { Resource := resource
             Dataset  := dataset
             Headers  := [("Content-Type", "application/json")]
             BaseURL  := "https://racs.rest/v3" }

/-- `makeRequest`: the shared helper. It sets every configured header on
the request; the response decoding it performs is the `net` oracle applied
to this request at the call site. -/
def makeRequest (r : Racs) (method url : String) (body : Option Body) : Request :=
  { method := method, url := url, body := body, headers := r.Headers }

/-- URL `"%s?resource=%s&dataset=%s"`. -/
def baseQueryURL (r : Racs) : String :=
  r.BaseURL ++ "?resource=" ++ r.Resource ++ "&dataset=" ++ r.Dataset

/-- URL `"%s/%s?resource=%s&dataset=%s"`. -/
def idURL (r : Racs) (postID : String) : String :=
  r.BaseURL ++ "/" ++ postID ++ "?resource=" ++ r.Resource ++ "&dataset=" ++ r.Dataset

/-- URL `"%s/get?resource=%s&dataset=%s"`. -/
def getURL (r : Racs) : String :=
  r.BaseURL ++ "/get?resource=" ++ r.Resource ++ "&dataset=" ++ r.Dataset

/-- URL `"%s/file/%s?resource=%s&dataset=%s"`. -/
def fileURL (r : Racs) (postID : String) : String :=
  r.BaseURL ++ "/file/" ++ postID ++ "?resource=" ++ r.Resource ++ "&dataset=" ++ r.Dataset

/-- The request `CreatePost` issues for data `d`. -/
def createPostRequest (r : Racs) (d : JsonObj) : Request :=
  makeRequest r "POST" (baseQueryURL r) (some (Body.jsonBody (Json.obj d)))

/-- `CreatePost`. -/
def CreatePost (r : Racs) (data : Option JsonObj) (net : Request → JsonObj) : CallOutcome :=
  match data with
  | none => ⟨[], [], r, .err (.validation "\x22data\x22 is required")⟩
  | some d =>
    let req := createPostRequest r d
    ⟨[req], [], r, .ok (net req)⟩

/-- The request `CreateFile` issues (built directly, not via `makeRequest`). -/
def createFileRequest (r : Racs) (content : List Nat) : Request :=
  { method := "POST", url := baseQueryURL r
    body := some (Body.rawBody content)
    headers := [("Content-Type", "multipart/form-data")] }

/-- `CreateFile`: reads the file at `filePath` through the `fs` oracle and
posts its raw bytes with a multipart content-type header. -/
def CreateFile (r : Racs) (filePath : String) (fs : String → Option (List Nat))
    (net : Request → JsonObj) : CallOutcome :=
  if filePath = "" then ⟨[], [], r, .err (.validation "\x22file_path\x22 is required")⟩
  else
    match fs filePath with
    | none => ⟨[], [], r, .err .osError⟩
    | some content =>
      let req := createFileRequest r content
      ⟨[req], [], r, .ok (net req)⟩

/-- The request `ReadPostByID` issues. -/
def readPostByIDRequest (r : Racs) (postID : String) : Request :=
  makeRequest r "GET" (idURL r postID) none

/-- `ReadPostByID`. -/
def ReadPostByID (r : Racs) (postID : String) (net : Request → JsonObj) : CallOutcome :=
  if postID = "" then ⟨[], [], r, .err (.validation "\x22post_id\x22 is required")⟩
  else
    let req := readPostByIDRequest r postID
    ⟨[req], [], r, .ok (net req)⟩

/-- The JSON payload `ReadPostByFilter` marshals, after defaulting:
`nil` filter becomes the empty mapping, `nil` sort becomes
`map[string]int\x7b"_created": -1\x7d`, limit `0` becomes `1`. -/
def readPostByFilterPayload (filterData sort : Option Json) (limit : Int) : Json :=
  Json.obj [("filter", filterData.getD (Json.obj []))
           , ("sort", sort.getD (Json.obj [("_created", Json.num (-1))]))
           , ("limit", Json.num ((if limit = 0 then 1 else limit : Int) : ℚ))]

/-- The request `ReadPostByFilter` issues. -/
def readPostByFilterRequest (r : Racs) (filterData sort : Option Json) (limit : Int) : Request :=
  makeRequest r "POST" (getURL r)
    (some (Body.jsonBody (readPostByFilterPayload filterData sort limit)))

/-- `ReadPostByFilter`: no argument validation; defaults are substituted. -/
def ReadPostByFilter (r : Racs) (filterData sort : Option Json) (limit : Int)
    (net : Request → JsonObj) : CallOutcome :=
  let req := readPostByFilterRequest r filterData sort limit
  ⟨[req], [], r, .ok (net req)⟩

/-- The request `ReadFileByID` issues (built directly, not via `makeRequest`). -/
def readFileByIDRequest (r : Racs) (postID : String) : Request :=
  { method := "GET", url := fileURL r postID
    body := none
    headers := [("Accept", "application/octet-stream")] }

/-- `ReadFileByID`: requests an octet-stream but still decodes the
response body as JSON (via the `net` oracle). -/
def ReadFileByID (r : Racs) (postID : String) (net : Request → JsonObj) : CallOutcome :=
  if postID = "" then ⟨[], [], r, .err (.validation "\x22post_id\x22 is required")⟩
  else
    let req := readFileByIDRequest r postID
    ⟨[req], [], r, .ok (net req)⟩

/-- The post-check both update operations run on the decoded response:
`resp["matchedCount"].(float64)` and `resp["modifiedCount"].(float64)` are
asserted (panic = `crash` when non-numeric, covering Go short-circuit
order: any non-numeric count is asserted on some executed path); both zero
returns `ErrNoUpdatesMade`; matched greater than modified prints a
warning. Returns the result and the printed warnings. -/
def updatePostCheck (resp : JsonObj) : CallResult × List String :=
  match assertFloat64 (mapGet resp "matchedCount"),
        assertFloat64 (mapGet resp "modifiedCount") with
  | some matched, some modified =>
    if matched = 0 ∧ modified = 0 then (.err .noUpdatesMade, [])
    else if modified < matched then (.ok resp, [warnMsg])
    else (.ok resp, [])
  | _, _ => (.crash, [])

/-- The request `UpdatePostByID` issues: PATCH with the caller mapping
wrapped under `$set` inside `update`. -/
def updatePostByIDRequest (r : Racs) (postID : String) (u : JsonObj) : Request :=
  makeRequest r "PATCH" (idURL r postID)
    (some (Body.jsonBody (Json.obj [("update", Json.obj [("$set", Json.obj u)])])))

/-- `UpdatePostByID`. -/
def UpdatePostByID (r : Racs) (postID : String) (updateOptions : Option JsonObj)
    (net : Request → JsonObj) : CallOutcome :=
  if postID = "" then ⟨[], [], r, .err (.validation "\x22post_id\x22 is required")⟩
  else
    match updateOptions with
    | none => ⟨[], [], r, .err (.validation "\x22update_options\x22 is required")⟩
    | some u =>
      let req := updatePostByIDRequest r postID u
      let checked := updatePostCheck (net req)
      ⟨[req], checked.2, r, checked.1⟩

/-- The request `UpdatePostByFilter` issues: PATCH with `filter` and the
caller mapping wrapped under `$set` inside `update`. -/
def updatePostByFilterRequest (r : Racs) (f u : JsonObj) : Request :=
  makeRequest r "PATCH" (baseQueryURL r)
    (some (Body.jsonBody (Json.obj [("filter", Json.obj f)
                                   , ("update", Json.obj [("$set", Json.obj u)])])))

/-- `UpdatePostByFilter`. -/
def UpdatePostByFilter (r : Racs) (filterData updateOptions : Option JsonObj)
    (net : Request → JsonObj) : CallOutcome :=
  match filterData with
  | none => ⟨[], [], r, .err (.validation "\x22filter_data\x22 is required")⟩
  | some f =>
    match updateOptions with
    | none => ⟨[], [], r, .err (.validation "\x22update_options\x22 is required")⟩
    | some u =>
      let req := updatePostByFilterRequest r f u
      let checked := updatePostCheck (net req)
      ⟨[req], checked.2, r, checked.1⟩

/-- The post-check both delete operations run:
`resp["deletedCount"].(float64)` is asserted (panic = `crash` when
non-numeric); zero returns `ErrFailedDelete` with a `nil` mapping. -/
def deletePostCheck (resp : JsonObj) : CallResult :=
  match assertFloat64 (mapGet resp "deletedCount") with
  | some deleted => if deleted = 0 then .err .failedDelete else .ok resp
  | none => .crash

/-- The request `DeletePostByID` issues. -/
def deletePostByIDRequest (r : Racs) (postID : String) : Request :=
  makeRequest r "DELETE" (idURL r postID) none

/-- `DeletePostByID`. -/
def DeletePostByID (r : Racs) (postID : String) (net : Request → JsonObj) : CallOutcome :=
  if postID = "" then ⟨[], [], r, .err (.validation "\x22post_id\x22 is required")⟩
  else
    let req := deletePostByIDRequest r postID
    ⟨[req], [], r, deletePostCheck (net req)⟩

/-- The request `DeletePostByFilter` issues. -/
def deletePostByFilterRequest (r : Racs) (f : JsonObj) : Request :=
  makeRequest r "DELETE" (baseQueryURL r)
    (some (Body.jsonBody (Json.obj [("filter", Json.obj f)])))

/-- `DeletePostByFilter`. -/
def DeletePostByFilter (r : Racs) (filterData : Option JsonObj)
    (net : Request → JsonObj) : CallOutcome :=
  match filterData with
  | none => ⟨[], [], r, .err (.validation "\x22filter_data\x22 is required")⟩
  | some f =>
    let req := deletePostByFilterRequest r f
    ⟨[req], [], r, deletePostCheck (net req)⟩

/-- A concrete client configuration used by witnesses. -/
def rDefault : Racs :=
  { Resource := "res", Dataset := "ds"
    Headers := [("Content-Type", "application/json")]
    BaseURL := "https://racs.rest/v3" }

/-- A network oracle whose every decoded response is the empty mapping. -/
def emptyNet : Request → JsonObj := fun _ => []

/-- A network oracle answering matchedCount 2, modifiedCount 1. -/
def netMatched2Modified1 : Request → JsonObj :=
  fun _ => [("matchedCount", Json.num 2), ("modifiedCount", Json.num 1)]

/-- A network oracle answering matchedCount 1, modifiedCount 1. -/
def netMatched1Modified1 : Request → JsonObj :=
  fun _ => [("matchedCount", Json.num 1), ("modifiedCount", Json.num 1)]

/-- A network oracle answering deletedCount 1. -/
def netDeleted1 : Request → JsonObj := fun _ => [("deletedCount", Json.num 1)]

/-- A file-system oracle with one file. -/
def fsOne : String → Option (List Nat) :=
  fun p => if p = "a.txt" then some [104, 105] else none

/-! ## Helper lemmas -/

theorem updatePostCheck_eq (resp : JsonObj) (mc mo : ℚ)
    (h1 : mapGet resp "matchedCount" = Json.num mc)
    (h2 : mapGet resp "modifiedCount" = Json.num mo) :
    updatePostCheck resp =
      if mc = 0 ∧ mo = 0 then (CallResult.err RacsError.noUpdatesMade, [])
      else if mo < mc then (CallResult.ok resp, [warnMsg])
      else (CallResult.ok resp, []) := by
  unfold updatePostCheck
  rw [h1, h2]
  rfl

theorem deletePostCheck_eq (resp : JsonObj) (dc : ℚ)
    (h : mapGet resp "deletedCount" = Json.num dc) :
    deletePostCheck resp =
      if dc = 0 then CallResult.err RacsError.failedDelete else CallResult.ok resp := by
  unfold deletePostCheck
  rw [h]
  rfl

theorem updatePostCheck_semantics (resp : JsonObj) (mc mo : ℚ)
    (h1 : mapGet resp "matchedCount" = Json.num mc)
    (h2 : mapGet resp "modifiedCount" = Json.num mo) :
    ((updatePostCheck resp).1 = CallResult.err RacsError.noUpdatesMade ↔ (mc = 0 ∧ mo = 0)) ∧
    (mo < mc → updatePostCheck resp = (CallResult.ok resp, [warnMsg])) ∧
    (mc = mo → 0 < mc → updatePostCheck resp = (CallResult.ok resp, [])) := by
  rw [updatePostCheck_eq resp mc mo h1 h2]
  by_cases hz : mc = 0 ∧ mo = 0
  · rw [if_pos hz]
    exact ⟨⟨fun _ => hz, fun _ => rfl⟩,
      fun h => absurd h (by rw [hz.1, hz.2]; exact lt_irrefl 0),
      fun _ hpos => absurd hpos (by rw [hz.1]; exact lt_irrefl 0)⟩
  · rw [if_neg hz]
    by_cases hlt : mo < mc
    · rw [if_pos hlt]
      exact ⟨⟨fun h => (nomatch h), fun h => absurd h hz⟩,
        fun _ => rfl,
        fun heq _ => absurd (heq ▸ hlt) (lt_irrefl mo)⟩
    · rw [if_neg hlt]
      exact ⟨⟨fun h => (nomatch h), fun h => absurd h hz⟩,
        fun h => absurd h hlt,
        fun _ _ => rfl⟩

theorem deletePostCheck_semantics (resp : JsonObj) (dc : ℚ)
    (h : mapGet resp "deletedCount" = Json.num dc) :
    (deletePostCheck resp = CallResult.err RacsError.failedDelete ↔ dc = 0) ∧
    (1 ≤ dc → deletePostCheck resp = CallResult.ok resp) := by
  rw [deletePostCheck_eq resp dc h]
  by_cases hz : dc = 0
  · rw [if_pos hz]
    exact ⟨⟨fun _ => hz, fun _ => rfl⟩,
      fun h1 => absurd (hz ▸ h1) (by norm_num)⟩
  · rw [if_neg hz]
    exact ⟨⟨fun h => (nomatch h), fun h => absurd h hz⟩, fun _ => rfl⟩

theorem assertFloat64_some (j : Json) (q : ℚ) (h : assertFloat64 j = some q) :
    j = Json.num q := by
  cases j with
  | num x => exact congrArg Json.num (Option.some.inj h)
  | null => exact nomatch h
  | boolean b => exact nomatch h
  | str s => exact nomatch h
  | arr elems => exact nomatch h
  | obj fields => exact nomatch h

theorem updatePostCheck_nonnum_left (resp : JsonObj)
    (hm : assertFloat64 (mapGet resp "matchedCount") = none) :
    updatePostCheck resp = (CallResult.crash, []) := by
  unfold updatePostCheck
  rw [hm]

theorem updatePostCheck_nonnum_right (resp : JsonObj) (mc : ℚ)
    (hm : assertFloat64 (mapGet resp "matchedCount") = some mc)
    (ho : assertFloat64 (mapGet resp "modifiedCount") = none) :
    updatePostCheck resp = (CallResult.crash, []) := by
  unfold updatePostCheck
  rw [hm, ho]

theorem deletePostCheck_nonnum (resp : JsonObj)
    (hd : assertFloat64 (mapGet resp "deletedCount") = none) :
    deletePostCheck resp = CallResult.crash := by
  unfold deletePostCheck
  rw [hd]

theorem updatePostCheck_crash_iff (resp : JsonObj) :
    (updatePostCheck resp).1 = CallResult.crash ↔
      (assertFloat64 (mapGet resp "matchedCount") = none ∨
       assertFloat64 (mapGet resp "modifiedCount") = none) := by
  constructor
  · intro hcr
    rcases hm : assertFloat64 (mapGet resp "matchedCount") with _ | mc
    · exact Or.inl rfl
    rcases ho : assertFloat64 (mapGet resp "modifiedCount") with _ | mo
    · exact Or.inr rfl
    rw [updatePostCheck_eq resp mc mo (assertFloat64_some _ _ hm)
      (assertFloat64_some _ _ ho)] at hcr
    revert hcr
    split_ifs <;> exact fun hcr => (nomatch hcr)
  · rintro (hh | hh)
    · rw [updatePostCheck_nonnum_left resp hh]
    · rcases hm : assertFloat64 (mapGet resp "matchedCount") with _ | mc
      · rw [updatePostCheck_nonnum_left resp hm]
      · rw [updatePostCheck_nonnum_right resp mc hm hh]

theorem deletePostCheck_crash_iff (resp : JsonObj) :
    deletePostCheck resp = CallResult.crash ↔
      assertFloat64 (mapGet resp "deletedCount") = none := by
  constructor
  · intro hcr
    rcases hd : assertFloat64 (mapGet resp "deletedCount") with _ | dc
    · rfl
    rw [deletePostCheck_eq resp dc (assertFloat64_some _ _ hd)] at hcr
    revert hcr
    split_ifs <;> exact fun hcr => (nomatch hcr)
  · exact deletePostCheck_nonnum resp

theorem UpdatePostByID_valid_eq (r : Racs) (postID : String) (u : JsonObj)
    (net : Request → JsonObj) (hpid : postID ≠ "") :
    UpdatePostByID r postID (some u) net =
      ⟨[updatePostByIDRequest r postID u],
       (updatePostCheck (net (updatePostByIDRequest r postID u))).2, r,
       (updatePostCheck (net (updatePostByIDRequest r postID u))).1⟩ := by
  unfold UpdatePostByID
  rw [if_neg hpid]

theorem UpdatePostByFilter_valid_eq (r : Racs) (f u : JsonObj) (net : Request → JsonObj) :
    UpdatePostByFilter r (some f) (some u) net =
      ⟨[updatePostByFilterRequest r f u],
       (updatePostCheck (net (updatePostByFilterRequest r f u))).2, r,
       (updatePostCheck (net (updatePostByFilterRequest r f u))).1⟩ := rfl

theorem DeletePostByID_valid_eq (r : Racs) (postID : String)
    (net : Request → JsonObj) (hpid : postID ≠ "") :
    DeletePostByID r postID net =
      ⟨[deletePostByIDRequest r postID], [], r,
       deletePostCheck (net (deletePostByIDRequest r postID))⟩ := by
  unfold DeletePostByID
  rw [if_neg hpid]

theorem DeletePostByFilter_valid_eq (r : Racs) (f : JsonObj) (net : Request → JsonObj) :
    DeletePostByFilter r (some f) net =
      ⟨[deletePostByFilterRequest r f], [], r,
       deletePostCheck (net (deletePostByFilterRequest r f))⟩ := rfl

theorem ReadPostByID_valid_eq (r : Racs) (postID : String)
    (net : Request → JsonObj) (hpid : postID ≠ "") :
    ReadPostByID r postID net =
      ⟨[readPostByIDRequest r postID], [], r,
       CallResult.ok (net (readPostByIDRequest r postID))⟩ := by
  unfold ReadPostByID
  rw [if_neg hpid]

theorem ReadFileByID_valid_eq (r : Racs) (postID : String)
    (net : Request → JsonObj) (hpid : postID ≠ "") :
    ReadFileByID r postID net =
      ⟨[readFileByIDRequest r postID], [], r,
       CallResult.ok (net (readFileByIDRequest r postID))⟩ := by
  unfold ReadFileByID
  rw [if_neg hpid]

theorem CreateFile_valid_eq (r : Racs) (filePath : String) (content : List Nat)
    (fs : String → Option (List Nat)) (net : Request → JsonObj)
    (hfp : filePath ≠ "") (hfs : fs filePath = some content) :
    CreateFile r filePath fs net =
      ⟨[createFileRequest r content], [], r,
       CallResult.ok (net (createFileRequest r content))⟩ := by
  unfold CreateFile
  rw [if_neg hfp, hfs]

/-! ## Claim theorems -/

/-- C4: `NewRacs resource dataset` fails with a validation error exactly when
`resource` is empty or `dataset` is empty; for every pair of non-empty
arguments it succeeds, and the returned client carries base URL
`https://racs.rest/v3` and a header mapping that is exactly the single
entry Content-Type: application/json. -/
theorem C4_newRacs_spec (resource dataset : String) :
    ((∃ c, NewRacs resource dataset = Except.ok c) ↔ (resource ≠ "" ∧ dataset ≠ "")) ∧
    (∀ c, NewRacs resource dataset = Except.ok c →
      c.BaseURL = "https://racs.rest/v3" ∧
      c.Headers = [("Content-Type", "application/json")] ∧
      c.Resource = resource ∧ c.Dataset = dataset) ∧
    ((resource = "" ∨ dataset = "") →
      ∃ m, NewRacs resource dataset = Except.error (RacsError.validation m)) := by
  unfold NewRacs
  by_cases hr : resource = ""
  · rw [if_pos hr]
    exact ⟨⟨fun ⟨c, hc⟩ => (nomatch hc), fun ⟨h1, _⟩ => absurd hr h1⟩,
      fun c hc => (nomatch hc), fun _ => ⟨_, rfl⟩⟩
  · rw [if_neg hr]
    by_cases hd : dataset = ""
    · rw [if_pos hd]
      exact ⟨⟨fun ⟨c, hc⟩ => (nomatch hc), fun ⟨_, h2⟩ => absurd hd h2⟩,
        fun c hc => (nomatch hc), fun _ => ⟨_, rfl⟩⟩
    · rw [if_neg hd]
      refine ⟨⟨fun _ => ⟨hr, hd⟩, fun _ => ⟨_, rfl⟩⟩, ?_, ?_⟩
      · intro c hc
        cases Except.ok.inj hc
        exact ⟨rfl, rfl, rfl, rfl⟩
      · rintro (h | h)
        · exact absurd h hr
        · exact absurd h hd

/-- C4 witness: at resource `res`, dataset `ds`, construction succeeds and
yields the default base URL and header mapping. -/
theorem C4_newRacs_witness :
    rDefault.BaseURL = "https://racs.rest/v3" ∧
    rDefault.Headers = [("Content-Type", "application/json")] ∧
    rDefault.Resource = "res" ∧ rDefault.Dataset = "ds" :=
  (C4_newRacs_spec "res" "ds").2.1 rDefault rfl

/-- C5: `ReadPostByFilter(nil, nil, 0)` issues exactly one POST to
`base/get?resource=..&dataset=..` whose JSON payload has the defaulted
fields: empty filter object, sort `_created: -1`, limit `1`. -/
theorem C5_readPostByFilter_defaults (r : Racs) (net : Request → JsonObj) :
    (ReadPostByFilter r none none 0 net).requests =
      [{ method := "POST"
         url := r.BaseURL ++ "/get?resource=" ++ r.Resource ++ "&dataset=" ++ r.Dataset
         body := some (Body.jsonBody (Json.obj
           [("filter", Json.obj [])
           , ("sort", Json.obj [("_created", Json.num (-1))])
           , ("limit", Json.num 1)]))
         headers := r.Headers }] := by
  unfold ReadPostByFilter readPostByFilterRequest readPostByFilterPayload makeRequest getURL
  norm_num [Option.getD]

/-- C8: every operation whose required input is missing (nil data, empty
file path, empty id, nil filter, nil update mapping) returns a validation
error and issues no HTTP request. -/
theorem C8_validation_no_network (r : Racs) (u f : JsonObj)
    (fs : String → Option (List Nat)) (net : Request → JsonObj) :
    ((CreatePost r none net).requests = [] ∧
      isValidationError (CreatePost r none net).result = true) ∧
    ((CreateFile r "" fs net).requests = [] ∧
      isValidationError (CreateFile r "" fs net).result = true) ∧
    ((ReadPostByID r "" net).requests = [] ∧
      isValidationError (ReadPostByID r "" net).result = true) ∧
    ((ReadFileByID r "" net).requests = [] ∧
      isValidationError (ReadFileByID r "" net).result = true) ∧
    ((UpdatePostByID r "" (some u) net).requests = [] ∧
      isValidationError (UpdatePostByID r "" (some u) net).result = true) ∧
    ((UpdatePostByID r "abc" none net).requests = [] ∧
      isValidationError (UpdatePostByID r "abc" none net).result = true) ∧
    ((DeletePostByID r "" net).requests = [] ∧
      isValidationError (DeletePostByID r "" net).result = true) ∧
    ((UpdatePostByFilter r none (some u) net).requests = [] ∧
      isValidationError (UpdatePostByFilter r none (some u) net).result = true) ∧
    ((UpdatePostByFilter r (some f) none net).requests = [] ∧
      isValidationError (UpdatePostByFilter r (some f) none net).result = true) ∧
    ((DeletePostByFilter r none net).requests = [] ∧
      isValidationError (DeletePostByFilter r none net).result = true) :=
  ⟨⟨rfl, rfl⟩, ⟨rfl, rfl⟩, ⟨rfl, rfl⟩, ⟨rfl, rfl⟩, ⟨rfl, rfl⟩,
   ⟨rfl, rfl⟩, ⟨rfl, rfl⟩, ⟨rfl, rfl⟩, ⟨rfl, rfl⟩, ⟨rfl, rfl⟩⟩

/-- C9: every one of the eight operations returns with the client
configuration unchanged (same Resource, Dataset, BaseURL and header
mapping): calls are read-only on the client, whatever the inputs and
whatever the network answers. -/
theorem C9_client_unchanged (r : Racs) (data updateOptions filterData : Option JsonObj)
    (fd srt : Option Json) (limit : Int) (postID filePath : String)
    (fs : String → Option (List Nat)) (net : Request → JsonObj) :
    (CreatePost r data net).clientAfter = r ∧
    (CreateFile r filePath fs net).clientAfter = r ∧
    (ReadPostByID r postID net).clientAfter = r ∧
    (ReadPostByFilter r fd srt limit net).clientAfter = r ∧
    (ReadFileByID r postID net).clientAfter = r ∧
    (UpdatePostByID r postID updateOptions net).clientAfter = r ∧
    (UpdatePostByFilter r filterData updateOptions net).clientAfter = r ∧
    (DeletePostByID r postID net).clientAfter = r ∧
    (DeletePostByFilter r filterData net).clientAfter = r := by
  refine ⟨?_, ?_, ?_, rfl, ?_, ?_, ?_, ?_, ?_⟩
  · cases data <;> rfl
  · unfold CreateFile
    split
    · rfl
    · split <;> rfl
  · unfold ReadPostByID
    split <;> rfl
  · unfold ReadFileByID
    split <;> rfl
  · unfold UpdatePostByID
    split
    · rfl
    · cases updateOptions <;> rfl
  · unfold UpdatePostByFilter
    cases filterData
    · rfl
    · cases updateOptions <;> rfl
  · unfold DeletePostByID
    split <;> rfl
  · unfold DeletePostByFilter
    cases filterData <;> rfl

/-- C10: `ReadPostByFilter` performs no required-argument check: for every
combination of inputs its result is the decoded response (never a
validation error); a nil filter, nil sort or zero limit is replaced by its
default, and any non-zero limit — negative included — is passed through to
the payload unchanged. -/
theorem C10_readPostByFilter_no_validation (r : Racs) (filterData sort : Option Json)
    (limit : Int) (net : Request → JsonObj) :
    isValidationError (ReadPostByFilter r filterData sort limit net).result = false ∧
    (ReadPostByFilter r filterData sort limit net).result
        = CallResult.ok (net (readPostByFilterRequest r filterData sort limit)) ∧
    (limit ≠ 0 →
      readPostByFilterPayload filterData sort limit
        = Json.obj [("filter", filterData.getD (Json.obj []))
                   , ("sort", sort.getD (Json.obj [("_created", Json.num (-1))]))
                   , ("limit", Json.num (limit : ℚ))]) ∧
    (limit = 0 →
      readPostByFilterPayload filterData sort limit
        = Json.obj [("filter", filterData.getD (Json.obj []))
                   , ("sort", sort.getD (Json.obj [("_created", Json.num (-1))]))
                   , ("limit", Json.num 1)]) := by
  refine ⟨rfl, rfl, fun h => ?_, fun h => ?_⟩
  · unfold readPostByFilterPayload
    rw [if_neg h]
  · unfold readPostByFilterPayload
    rw [if_pos h]
    simp

/-- C10 witness: a negative limit `-5` passes through to the payload
unchanged. -/
theorem C10_readPostByFilter_witness :
    readPostByFilterPayload none none (-5)
      = Json.obj [("filter", (none : Option Json).getD (Json.obj []))
                 , ("sort", (none : Option Json).getD (Json.obj [("_created", Json.num (-1))]))
                 , ("limit", Json.num ((-5 : Int) : ℚ))] :=
  (C10_readPostByFilter_no_validation rDefault none none (-5) emptyNet).2.2.1 (by norm_num)

/-- C1: for every update call (`UpdatePostByID` with non-empty id and
non-nil update mapping, `UpdatePostByFilter` with non-nil filter and
non-nil update mapping) whose decoded response has numeric matchedCount
`mc` and modifiedCount `mo`: the call returns the no-updates-made error
exactly when `mc = 0` and `mo = 0`; when `mo < mc` it succeeds with the
decoded response and prints exactly the non-fatal warning (never an
error); when `mc = mo > 0` it succeeds printing nothing. -/
theorem C1_update_count_semantics (r : Racs) (postID : String) (u f : JsonObj)
    (net : Request → JsonObj) (mc mo : ℚ)
    (hpid : postID ≠ "")
    (hid1 : mapGet (net (updatePostByIDRequest r postID u)) "matchedCount" = Json.num mc)
    (hid2 : mapGet (net (updatePostByIDRequest r postID u)) "modifiedCount" = Json.num mo)
    (hf1 : mapGet (net (updatePostByFilterRequest r f u)) "matchedCount" = Json.num mc)
    (hf2 : mapGet (net (updatePostByFilterRequest r f u)) "modifiedCount" = Json.num mo) :
    ((UpdatePostByID r postID (some u) net).result
        = CallResult.err RacsError.noUpdatesMade ↔ (mc = 0 ∧ mo = 0)) ∧
    (mo < mc →
      (UpdatePostByID r postID (some u) net).result
          = CallResult.ok (net (updatePostByIDRequest r postID u)) ∧
      (UpdatePostByID r postID (some u) net).warnings = [warnMsg]) ∧
    (mc = mo → 0 < mc →
      (UpdatePostByID r postID (some u) net).result
          = CallResult.ok (net (updatePostByIDRequest r postID u)) ∧
      (UpdatePostByID r postID (some u) net).warnings = []) ∧
    ((UpdatePostByFilter r (some f) (some u) net).result
        = CallResult.err RacsError.noUpdatesMade ↔ (mc = 0 ∧ mo = 0)) ∧
    (mo < mc →
      (UpdatePostByFilter r (some f) (some u) net).result
          = CallResult.ok (net (updatePostByFilterRequest r f u)) ∧
      (UpdatePostByFilter r (some f) (some u) net).warnings = [warnMsg]) ∧
    (mc = mo → 0 < mc →
      (UpdatePostByFilter r (some f) (some u) net).result
          = CallResult.ok (net (updatePostByFilterRequest r f u)) ∧
      (UpdatePostByFilter r (some f) (some u) net).warnings = []) := by
  rw [UpdatePostByID_valid_eq r postID u net hpid, UpdatePostByFilter_valid_eq r f u net]
  obtain ⟨i1, i2, i3⟩ := updatePostCheck_semantics _ mc mo hid1 hid2
  obtain ⟨j1, j2, j3⟩ := updatePostCheck_semantics _ mc mo hf1 hf2
  refine ⟨i1, fun h => ?_, fun he hp => ?_, j1, fun h => ?_, fun he hp => ?_⟩
  · exact ⟨congrArg Prod.fst (i2 h), congrArg Prod.snd (i2 h)⟩
  · exact ⟨congrArg Prod.fst (i3 he hp), congrArg Prod.snd (i3 he hp)⟩
  · exact ⟨congrArg Prod.fst (j2 h), congrArg Prod.snd (j2 h)⟩
  · exact ⟨congrArg Prod.fst (j3 he hp), congrArg Prod.snd (j3 he hp)⟩

/-- C1 witness: with a response of matchedCount 2, modifiedCount 1,
`UpdatePostByID` succeeds with the decoded response and prints exactly the
warning. -/
theorem C1_update_count_witness :
    (UpdatePostByID rDefault "abc" (some []) netMatched2Modified1).result
        = CallResult.ok (netMatched2Modified1 (updatePostByIDRequest rDefault "abc" [])) ∧
    (UpdatePostByID rDefault "abc" (some []) netMatched2Modified1).warnings = [warnMsg] :=
  (C1_update_count_semantics rDefault "abc" [] [] netMatched2Modified1 2 1
    (by decide) rfl rfl rfl rfl).2.1 (by norm_num)

/-- C2: for every delete call (`DeletePostByID` with non-empty id,
`DeletePostByFilter` with non-nil filter) whose decoded response has
numeric deletedCount `dc`: the call returns the failed-delete error (with
nil mapping) exactly when `dc = 0`; when `dc ≥ 1` it succeeds with the
decoded response unchanged. -/
theorem C2_delete_count_semantics (r : Racs) (postID : String) (f : JsonObj)
    (net : Request → JsonObj) (dc : ℚ)
    (hpid : postID ≠ "")
    (h1 : mapGet (net (deletePostByIDRequest r postID)) "deletedCount" = Json.num dc)
    (h2 : mapGet (net (deletePostByFilterRequest r f)) "deletedCount" = Json.num dc) :
    ((DeletePostByID r postID net).result = CallResult.err RacsError.failedDelete ↔ dc = 0) ∧
    (1 ≤ dc → (DeletePostByID r postID net).result
        = CallResult.ok (net (deletePostByIDRequest r postID))) ∧
    ((DeletePostByFilter r (some f) net).result
        = CallResult.err RacsError.failedDelete ↔ dc = 0) ∧
    (1 ≤ dc → (DeletePostByFilter r (some f) net).result
        = CallResult.ok (net (deletePostByFilterRequest r f))) := by
  rw [DeletePostByID_valid_eq r postID net hpid, DeletePostByFilter_valid_eq r f net]
  obtain ⟨a1, a2⟩ := deletePostCheck_semantics _ dc h1
  obtain ⟨b1, b2⟩ := deletePostCheck_semantics _ dc h2
  exact ⟨a1, a2, b1, b2⟩

/-- C2 witness: with a response of deletedCount 1, `DeletePostByID`
succeeds and returns the decoded response. -/
theorem C2_delete_count_witness :
    (DeletePostByID rDefault "abc" netDeleted1).result
        = CallResult.ok (netDeleted1 (deletePostByIDRequest rDefault "abc")) :=
  (C2_delete_count_semantics rDefault "abc" [] netDeleted1 1
    (by decide) rfl rfl).2.1 (by norm_num)

/-- C3 counterexample: on a decoded response that is the empty mapping
(count fields absent), `UpdatePostByID` and `DeletePostByID` do not return
normally — the unchecked `float64` type assertion panics (`crash`),
refuting the claim that the operation still returns a result or an error. -/
theorem C3_optional_reads_counterexample :
    (UpdatePostByID rDefault "abc" (some []) emptyNet).result = CallResult.crash ∧
    (DeletePostByID rDefault "abc" emptyNet).result = CallResult.crash :=
  ⟨rfl, rfl⟩

/-- C3 amended: the count fields are not optional reads — each mutation
operation panics exactly when its count field is missing or non-numeric in
the decoded response (`mapGet` of an absent key yields null, and the
`float64` assertion fails on any non-numeric value); when the counts are
numeric no crash occurs, and no other response field is inspected. -/
theorem C3_crash_on_nonnumeric_counts (r : Racs) (postID : String) (u f : JsonObj)
    (net : Request → JsonObj) (hpid : postID ≠ "") :
    ((UpdatePostByID r postID (some u) net).result = CallResult.crash ↔
      (assertFloat64 (mapGet (net (updatePostByIDRequest r postID u)) "matchedCount") = none ∨
       assertFloat64 (mapGet (net (updatePostByIDRequest r postID u)) "modifiedCount") = none)) ∧
    ((UpdatePostByFilter r (some f) (some u) net).result = CallResult.crash ↔
      (assertFloat64 (mapGet (net (updatePostByFilterRequest r f u)) "matchedCount") = none ∨
       assertFloat64 (mapGet (net (updatePostByFilterRequest r f u)) "modifiedCount") = none)) ∧
    ((DeletePostByID r postID net).result = CallResult.crash ↔
      assertFloat64 (mapGet (net (deletePostByIDRequest r postID)) "deletedCount") = none) ∧
    ((DeletePostByFilter r (some f) net).result = CallResult.crash ↔
      assertFloat64 (mapGet (net (deletePostByFilterRequest r f)) "deletedCount") = none) := by
  rw [UpdatePostByID_valid_eq r postID u net hpid, UpdatePostByFilter_valid_eq r f u net,
    DeletePostByID_valid_eq r postID net hpid, DeletePostByFilter_valid_eq r f net]
  exact ⟨updatePostCheck_crash_iff _, updatePostCheck_crash_iff _,
    deletePostCheck_crash_iff _, deletePostCheck_crash_iff _⟩

/-- C3 witness: on the empty response mapping, the filter variants crash. -/
theorem C3_crash_witness :
    (UpdatePostByFilter rDefault (some []) (some []) emptyNet).result = CallResult.crash ∧
    (DeletePostByFilter rDefault (some []) emptyNet).result = CallResult.crash :=
  ⟨(C3_crash_on_nonnumeric_counts rDefault "abc" [] [] emptyNet (by decide)).2.1.mpr
      (Or.inl rfl),
   (C3_crash_on_nonnumeric_counts rDefault "abc" [] [] emptyNet (by decide)).2.2.2.mpr rfl⟩

/-- C6: `UpdatePostByID` sends a PATCH to `base/id?resource=..&dataset=..`
whose body is exactly the update mapping wrapped under a dollar-set key
inside an update key, with no filter key; `UpdatePostByFilter` sends a
PATCH to `base?resource=..&dataset=..` with the filter and the same
wrapped update. -/
theorem C6_update_request_shapes (r : Racs) (postID : String) (u f : JsonObj)
    (net : Request → JsonObj) (hpid : postID ≠ "") :
    (UpdatePostByID r postID (some u) net).requests =
      [{ method := "PATCH"
         url := r.BaseURL ++ "/" ++ postID ++ "?resource=" ++ r.Resource
                  ++ "&dataset=" ++ r.Dataset
         body := some (Body.jsonBody (Json.obj [("update", Json.obj [("$set", Json.obj u)])]))
         headers := r.Headers }] ∧
    (UpdatePostByFilter r (some f) (some u) net).requests =
      [{ method := "PATCH"
         url := r.BaseURL ++ "?resource=" ++ r.Resource ++ "&dataset=" ++ r.Dataset
         body := some (Body.jsonBody (Json.obj
           [("filter", Json.obj f), ("update", Json.obj [("$set", Json.obj u)])]))
         headers := r.Headers }] := by
  rw [UpdatePostByID_valid_eq r postID u net hpid, UpdatePostByFilter_valid_eq r f u net]
  exact ⟨rfl, rfl⟩

/-- C6 witness: the concrete PATCH request of `UpdatePostByID` at id `abc`
with the empty update mapping. -/
theorem C6_update_request_witness :
    (UpdatePostByID rDefault "abc" (some []) emptyNet).requests =
      [{ method := "PATCH"
         url := rDefault.BaseURL ++ "/" ++ "abc" ++ "?resource=" ++ rDefault.Resource
                  ++ "&dataset=" ++ rDefault.Dataset
         body := some (Body.jsonBody (Json.obj [("update", Json.obj [("$set", Json.obj [])])]))
         headers := rDefault.Headers }] :=
  (C6_update_request_shapes rDefault "abc" [] [] emptyNet (by decide)).1

/-- C7: every operation except `CreateFile` and `ReadFileByID` issues its
single request through `makeRequest`, whose requests carry exactly the
configured header mapping, and its result mapping is the decoded response
for that request; `CreateFile` and `ReadFileByID` build their requests
directly with their own header sets (multipart content-type, octet-stream
accept) and still take their result from the JSON-decoded response. -/
theorem C7_request_routing (r : Racs) (d u f : JsonObj) (postID filePath : String)
    (filterData srt : Option Json) (limit : Int) (content : List Nat)
    (fs : String → Option (List Nat)) (net : Request → JsonObj)
    (hpid : postID ≠ "") (hfp : filePath ≠ "") (hfs : fs filePath = some content) :
    (CreatePost r (some d) net).requests
        = [makeRequest r "POST" (baseQueryURL r) (some (Body.jsonBody (Json.obj d)))] ∧
    (ReadPostByID r postID net).requests
        = [makeRequest r "GET" (idURL r postID) none] ∧
    (ReadPostByFilter r filterData srt limit net).requests
        = [makeRequest r "POST" (getURL r)
            (some (Body.jsonBody (readPostByFilterPayload filterData srt limit)))] ∧
    (UpdatePostByID r postID (some u) net).requests
        = [makeRequest r "PATCH" (idURL r postID)
            (some (Body.jsonBody (Json.obj [("update", Json.obj [("$set", Json.obj u)])])))] ∧
    (UpdatePostByFilter r (some f) (some u) net).requests
        = [makeRequest r "PATCH" (baseQueryURL r)
            (some (Body.jsonBody (Json.obj
              [("filter", Json.obj f), ("update", Json.obj [("$set", Json.obj u)])])))] ∧
    (DeletePostByID r postID net).requests
        = [makeRequest r "DELETE" (idURL r postID) none] ∧
    (DeletePostByFilter r (some f) net).requests
        = [makeRequest r "DELETE" (baseQueryURL r)
            (some (Body.jsonBody (Json.obj [("filter", Json.obj f)])))] ∧
    (∀ m url b, (makeRequest r m url b).headers = r.Headers) ∧
    (CreatePost r (some d) net).result = CallResult.ok (net (createPostRequest r d)) ∧
    (ReadPostByID r postID net).result
        = CallResult.ok (net (readPostByIDRequest r postID)) ∧
    (ReadPostByFilter r filterData srt limit net).result
        = CallResult.ok (net (readPostByFilterRequest r filterData srt limit)) ∧
    (CreateFile r filePath fs net).requests = [createFileRequest r content] ∧
    (createFileRequest r content).headers = [("Content-Type", "multipart/form-data")] ∧
    (CreateFile r filePath fs net).result
        = CallResult.ok (net (createFileRequest r content)) ∧
    (ReadFileByID r postID net).requests = [readFileByIDRequest r postID] ∧
    (readFileByIDRequest r postID).headers = [("Accept", "application/octet-stream")] ∧
    (ReadFileByID r postID net).result
        = CallResult.ok (net (readFileByIDRequest r postID)) := by
  rw [ReadPostByID_valid_eq r postID net hpid, UpdatePostByID_valid_eq r postID u net hpid,
    UpdatePostByFilter_valid_eq r f u net, DeletePostByID_valid_eq r postID net hpid,
    DeletePostByFilter_valid_eq r f net, ReadFileByID_valid_eq r postID net hpid,
    CreateFile_valid_eq r filePath content fs net hfp hfs]
  exact ⟨rfl, rfl, rfl, rfl, rfl, rfl, rfl, fun m url b => rfl,
    rfl, rfl, rfl, rfl, rfl, rfl, rfl, rfl, rfl⟩

/-- C7 witness: `ReadFileByID` at id `abc` takes its result from the
JSON-decoded response for its directly built request. -/
theorem C7_request_routing_witness :
    (ReadFileByID rDefault "abc" emptyNet).result
        = CallResult.ok (emptyNet (readFileByIDRequest rDefault "abc")) := by
  obtain ⟨-, -, -, -, -, -, -, -, -, -, -, -, -, -, -, -, h⟩ :=
    C7_request_routing rDefault [] [] [] "abc" "a.txt" none none 0 [104, 105] fsOne emptyNet
      (by decide) (by decide) rfl
  exact h

end RacsGo
